import Mathlib

/-!
Shallow embedding of the request-orchestration core of the serverless image
handler (`src/source/image-handler/index.ts`): the Lambda `handler`, the
header builder `getResponseHeaders`, and the redirect builder
`getRedirectResponse`.  External collaborators (request setup, image
processing, the fallback-object fetch) are modelled as oracles whose
outcomes are inputs of the embedded handler; environment variables are an
explicit record.  JavaScript `undefined` is modelled with `Option` and with
the `HVal.undef` header value.
-/

/-- Value stored under a header key.  TypeScript writes strings, the boolean
`true` (for `Access-Control-Allow-Credentials`), and possibly-`undefined`
values (`imageRequestInfo.contentType`, `process.env.CORS_ORIGIN`) into the
`Headers` mapping, so the value type has all three shapes. -/
inductive HVal where
  | str (s : String)
  | bool (b : Bool)
  | undef
deriving DecidableEq

/-- Header mapping, as an insertion-ordered association list: a JavaScript
object whose own enumerable string keys are the header names. -/
abbrev Headers := List (String × HVal)

/-- Property assignment `headers[k] = v` on a JavaScript object: overwrites
the value in place when the key exists, otherwise appends the key. -/
def setHeader : Headers → String → HVal → Headers
  | [], k, v => [(k, v)]
  | (k0, v0) :: rest, k, v =>
    if k0 = k then (k, v) :: rest else (k0, v0) :: setHeader rest k v

/-- Reads the value stored under a key, `none` when the key is absent. -/
def lookupHeader : Headers → String → Option HVal
  | [], _ => none
  | (k0, v0) :: rest, k => if k0 = k then some v0 else lookupHeader rest k

/-- Object spread `\x7b...a, ...b\x7d`: assigns every entry of `b` onto a
copy of `a`, in order, so entries of `b` win on shared keys. -/
def mergeHeaders (a b : Headers) : Headers :=
  b.foldl (fun acc kv => setHeader acc kv.1 kv.2) a

/-- Modelled from the spec: the `StatusCodes` constants imported from
`lib.ts`, a file of this repository that is not under `src/`.  The spec
gives status 200 (OK) for success, a 301-class status for the redirect
(`MOVED`), and 500 (`INTERNAL_SERVER_ERROR`) for the generic error. -/
def StatusCodes.OK : Nat := 200

/-- Modelled from the spec: see `StatusCodes.OK`. -/
def StatusCodes.MOVED : Nat := 301

/-- Modelled from the spec: see `StatusCodes.OK`. -/
def StatusCodes.INTERNAL_SERVER_ERROR : Nat := 500

/-- Modelled from the spec: `isNullOrWhiteSpace` from
`solution-utils/helpers`, a file of this repository that is not under
`src/`.  The spec requires the fallback bucket and key to be configured
"non-empty, non-whitespace", so the helper is true exactly when the value
is absent or consists only of whitespace. -/
def isNullOrWhiteSpace : Option String → Bool
  | none => true
  | some s => s.toList.all (fun ch => ch.isWhitespace)

/-- Environment variables read by `index.ts`; each is a present string or
`undefined`, as `process.env` fields are in Node. -/
structure ProcessEnv where
  HIGHRES_CDN_URL : Option String
  CORS_ENABLED : Option String
  CORS_ORIGIN : Option String
  ENABLE_DEFAULT_FALLBACK_IMAGE : Option String
  DEFAULT_FALLBACK_IMAGE_BUCKET : Option String
  DEFAULT_FALLBACK_IMAGE_KEY : Option String
deriving DecidableEq

/-- Template-literal interpolation `${x}` of a possibly-`undefined` value:
JavaScript renders `undefined` as the literal text "undefined". -/
def templateVal : Option String → String
  | none => "undefined"
  | some s => s

/-- Reads a possibly-`undefined` string into a header value. -/
def optHVal : Option String → HVal
  | none => .undef
  | some s => .str s

/-- Inbound event.  The interface in `lib.ts` carries the raw request
fields; the handler reads only `requestContext`, testing it for presence of
an own property named "elb", so the context is modelled as the list of its
own properties (name, value). -/
structure ImageHandlerEvent where
  path : Option String
  queryStringParameters : Option (List (String × String))
  headers : Option (List (String × String))
  body : Option String
  requestContext : Option (List (String × String))
deriving DecidableEq

/-- Line 31: `const isAlb = event.requestContext &&
Object.prototype.hasOwnProperty.call(event.requestContext, "elb")` — truthy
exactly when the context is present and has an own property named "elb",
whatever that property holds. -/
def isAlbEvent (event : ImageHandlerEvent) : Bool :=
  match event.requestContext with
  | none => false
  | some rc => rc.any (fun p => p.1 == "elb")

/-- The normalized request produced by the external setup collaborator
(interface `ImageRequestInfo` in `lib.ts`).  Only the fields the handler
reads are modelled.  `key` is an `Option` because the handler also flows the
degenerate `\x7b\x7d as ImageRequestInfo` object (whose `key` is
`undefined`) into the catch path; `edits` parameters are opaque, only the
key count is inspected. -/
structure ImageRequestInfo where
  key : Option String
  edits : List (String × String)
  contentType : HVal
  expires : HVal
  lastModified : HVal
  cacheControl : HVal
  headers : Option Headers
deriving DecidableEq

/-- Line 33: `let imageRequestInfo: ImageRequestInfo = \x7b\x7d as
ImageRequestInfo` — the empty object cast; every property access on it
yields `undefined`.  Only `key` is ever read from this degenerate value (by
`getRedirectResponse` when setup failed), so the remaining fields are
inert placeholders. -/
def emptyRequestInfo : ImageRequestInfo :=
  { key := none, edits := [], contentType := .undef, expires := .undef,
    lastModified := .undef, cacheControl := .undef, headers := none }

/-- A thrown failure as the handler probes it: `status` (optional number,
tested for truthiness, so 0 behaves like absence), `code` (string compared
with "TooLargeImageException") and `message`. -/
structure ErrorInfo where
  status : Option Nat
  code : String
  message : String
deriving DecidableEq

/-- JavaScript truthiness of `error.status`: false for `undefined` and for
the number 0. -/
def statusTruthy : Option Nat → Bool
  | none => false
  | some n => n != 0

/-- The conditional `error.status ? error.status : StatusCodes.INTERNAL_SERVER_ERROR`. -/
def statusOrInternal (e : ErrorInfo) : Nat :=
  if statusTruthy e.status then e.status.getD StatusCodes.INTERNAL_SERVER_ERROR
  else StatusCodes.INTERNAL_SERVER_ERROR

/-- JSON string literal; escaping of special characters inside the payload
is not modelled (no modelled value contains them). -/
def jsonStr (s : String) : String := "\"" ++ s ++ "\""

/-- JSON.stringify of a thrown error object carrying `status`, `code` and
`message` own properties in that insertion order; an absent (`undefined`)
`status` is skipped, as JSON.stringify drops undefined properties. -/
def stringifyError (e : ErrorInfo) : String :=
  "\x7b"
    ++ (match e.status with
        | some n => jsonStr "status" ++ ":" ++ toString n ++ ","
        | none => "")
    ++ jsonStr "code" ++ ":" ++ jsonStr e.code ++ ","
    ++ jsonStr "message" ++ ":" ++ jsonStr e.message
    ++ "\x7d"

/-- Lines 115-119: the fixed generic body, JSON.stringify of the literal
object with `message`, `code`, `status` in that insertion order. -/
def genericErrorBody : String :=
  "\x7b" ++ jsonStr "message" ++ ":"
    ++ jsonStr "Internal error. Please contact the system administrator." ++ ","
    ++ jsonStr "code" ++ ":" ++ jsonStr "InternalError" ++ ","
    ++ jsonStr "status" ++ ":" ++ toString StatusCodes.INTERNAL_SERVER_ERROR
    ++ "\x7d"

/-- The outbound response (interface `ImageHandlerExecutionResult`):
`body` is a string or `null`. -/
structure ImageHandlerExecutionResult where
  statusCode : Nat
  isBase64Encoded : Bool
  headers : Headers
  body : Option String
deriving DecidableEq

/-- The object returned by the fallback `s3Client.getObject` fetch: bytes
of the object plus its possibly-`undefined` `ContentType` and
`LastModified` metadata. -/
structure FallbackObject where
  contentType : HVal
  lastModified : HVal
  bodyBytes : List Nat
deriving DecidableEq

/-- Outcome of `imageRequest.setup(event)`. -/
inductive SetupOutcome where
  | ok (info : ImageRequestInfo)
  | err (e : ErrorInfo)
deriving DecidableEq

/-- Outcome of `imageHandler.process(imageRequestInfo)`. -/
inductive ProcessOutcome where
  | ok (payload : String)
  | err (e : ErrorInfo)
deriving DecidableEq

/-- Outcome of the inner try block of the Tier-2 fallback: the
`getObject` fetch together with the response construction from its result
(any throw inside that try is caught by the inner catch). -/
inductive FetchOutcome where
  | ok (obj : FallbackObject)
  | err (e : ErrorInfo)
deriving DecidableEq

/-- One invocation worth of external-collaborator outcomes; the handler
consults each at most once. -/
structure Collaborators where
  setup : SetupOutcome
  process : ProcessOutcome
  fetchFallback : FetchOutcome
deriving DecidableEq

/-- The standard base64 alphabet, as `Buffer.prototype.toString("base64")`
uses it. -/
def base64Chars : List Char :=
  "ABCDEFGHIJKLMNOPQRSTUVWXYZabcdefghijklmnopqrstuvwxyz0123456789+/".toList

/-- Character of the base64 alphabet at an index below 64. -/
def b64c (n : Nat) : Char := base64Chars.getD n 'A'

/-- Base64 encoding of a byte sequence (each byte reduced mod 256),
modelling `Body.toString("base64")` on the fetched fallback object. -/
def base64Encode : List Nat → String
  | [] => ""
  | [a] =>
    let a := a % 256
    String.mk [b64c (a / 4), b64c (a % 4 * 16), '=', '=']
  | [a, b] =>
    let a := a % 256
    let b := b % 256
    String.mk [b64c (a / 4), b64c (a % 4 * 16 + b / 16), b64c (b % 16 * 4), '=']
  | a :: b :: c :: rest =>
    let a := a % 256
    let b := b % 256
    let c := c % 256
    String.mk [b64c (a / 4), b64c (a % 4 * 16 + b / 16),
               b64c (b % 16 * 4 + c / 64), b64c (c % 64)]
      ++ base64Encode rest

/-- Lines 132-153, `getResponseHeaders(isError, isAlb)`: base headers, then
`Access-Control-Allow-Credentials = true` unless the request came through
the load balancer, then the CORS origin when enabled, then the JSON
content type on errors. -/
def getResponseHeaders (isError : Bool) (isAlb : Bool) (env : ProcessEnv) : Headers :=
  let headers0 : Headers :=
    [("Access-Control-Allow-Methods", HVal.str "GET"),
     ("Access-Control-Allow-Headers", HVal.str "Content-Type, Authorization")]
  let headers1 :=
    if isAlb then headers0
    else setHeader headers0 "Access-Control-Allow-Credentials" (HVal.bool true)
  let headers2 :=
    if env.CORS_ENABLED = some "Yes" then
      setHeader headers1 "Access-Control-Allow-Origin" (optHVal env.CORS_ORIGIN)
    else headers1
  if isError then setHeader headers2 "Content-Type" (HVal.str "application/json")
  else headers2

/-- Lines 160-169, `getRedirectResponse(imageRequestInfo)`: status MOVED,
not base64, a single `Location` header interpolating
`process.env.HIGHRES_CDN_URL` and the request key, and a `null` body. -/
def getRedirectResponse (env : ProcessEnv) (info : ImageRequestInfo) :
    ImageHandlerExecutionResult :=
  { statusCode := StatusCodes.MOVED
    isBase64Encoded := false
    headers := [("Location",
      HVal.str (templateVal env.HIGHRES_CDN_URL ++ "/" ++ templateVal info.key))]
    body := none }

/-- Lines 40-43: the redirect gate
`Object.keys(imageRequestInfo.edits).length === 0 && imageRequestInfo.key !== ""`. -/
def noEditsGate (info : ImageRequestInfo) : Bool :=
  info.edits.length == 0 && info.key != some ""

/-- Lines 76-80: the Tier-2 configuration test —
`ENABLE_DEFAULT_FALLBACK_IMAGE === "Yes"` and neither the fallback bucket
nor the fallback key is null or whitespace. -/
def fallbackConfigured (env : ProcessEnv) : Bool :=
  env.ENABLE_DEFAULT_FALLBACK_IMAGE == some "Yes"
    && !isNullOrWhiteSpace env.DEFAULT_FALLBACK_IMAGE_BUCKET
    && !isNullOrWhiteSpace env.DEFAULT_FALLBACK_IMAGE_KEY

/-- Lines 89-100: the response built from a successfully fetched fallback
object — non-error headers overlaid with the object metadata and a fixed
one-year public cache control, the original error status when truthy else
500, and the object bytes base64-encoded. -/
def fallbackResponse (env : ProcessEnv) (isAlb : Bool) (e : ErrorInfo)
    (obj : FallbackObject) : ImageHandlerExecutionResult :=
  let headers := getResponseHeaders false isAlb env
  let headers := setHeader headers "Content-Type" obj.contentType
  let headers := setHeader headers "Last-Modified" obj.lastModified
  let headers := setHeader headers "Cache-Control" (HVal.str "max-age=31536000,public")
  { statusCode := statusOrInternal e
    isBase64Encoded := true
    headers := headers
    body := some (base64Encode obj.bodyBytes) }

/-- Lines 104-122, the structured-error tail of the catch block: when the
error status is truthy, that status with the serialized error as body;
otherwise 500 with the fixed generic body.  Both carry the error headers. -/
def tier3Response (env : ProcessEnv) (isAlb : Bool) (e : ErrorInfo) :
    ImageHandlerExecutionResult :=
  if statusTruthy e.status then
    { statusCode := e.status.getD StatusCodes.INTERNAL_SERVER_ERROR
      isBase64Encoded := false
      headers := getResponseHeaders true isAlb env
      body := some (stringifyError e) }
  else
    { statusCode := StatusCodes.INTERNAL_SERVER_ERROR
      isBase64Encoded := false
      headers := getResponseHeaders true isAlb env
      body := some genericErrorBody }

/-- Lines 66-123, the catch block of `handler`: redirect on
`TooLargeImageException`, else the Tier-2 fallback image when configured
and its inner try succeeds, else the structured error response. -/
def resolveError (env : ProcessEnv) (isAlb : Bool) (info : ImageRequestInfo)
    (e : ErrorInfo) (fetched : FetchOutcome) : ImageHandlerExecutionResult :=
  if e.code = "TooLargeImageException" then getRedirectResponse env info
  else if fallbackConfigured env then
    match fetched with
    | .ok obj => fallbackResponse env isAlb e obj
    | .err _ => tier3Response env isAlb e
  else tier3Response env isAlb e

/-- Lines 45-64: the success response — non-error headers overlaid with the
content type, expiry, last-modified and cache-control of the request info,
then the custom headers spread over them when present; status 200, base64
body. -/
def successResponse (env : ProcessEnv) (isAlb : Bool) (info : ImageRequestInfo)
    (payload : String) : ImageHandlerExecutionResult :=
  let headers := getResponseHeaders false isAlb env
  let headers := setHeader headers "Content-Type" info.contentType
  let headers := setHeader headers "Expires" info.expires
  let headers := setHeader headers "Last-Modified" info.lastModified
  let headers := setHeader headers "Cache-Control" info.cacheControl
  let headers :=
    match info.headers with
    | some custom => mergeHeaders headers custom
    | none => headers
  { statusCode := StatusCodes.OK
    isBase64Encoded := true
    headers := headers
    body := some payload }

/-- Lines 26-124, the Lambda `handler`: determine the origin protocol once,
run setup (on failure the catch sees the empty request info), take the
no-edits redirect gate, otherwise process the image and build the success
response; every failure flows through the catch block `resolveError`. -/
def handler (env : ProcessEnv) (event : ImageHandlerEvent)
    (ext : Collaborators) : ImageHandlerExecutionResult :=
  let isAlb := isAlbEvent event
  match ext.setup with
  | .err e => resolveError env isAlb emptyRequestInfo e ext.fetchFallback
  | .ok info =>
    if noEditsGate info then getRedirectResponse env info
    else
      match ext.process with
      | .ok payload => successResponse env isAlb info payload
      | .err e => resolveError env isAlb info e ext.fetchFallback

/-! Concrete fixtures used to evaluate the embedded handler at explicit
inputs (witnesses and counterexamples). -/

/-- Environment with no CORS and no fallback configured. -/
def envPlain : ProcessEnv :=
  { HIGHRES_CDN_URL := some "https://cdn", CORS_ENABLED := none,
    CORS_ORIGIN := none, ENABLE_DEFAULT_FALLBACK_IMAGE := none,
    DEFAULT_FALLBACK_IMAGE_BUCKET := none, DEFAULT_FALLBACK_IMAGE_KEY := none }

/-- Environment with the default fallback image fully configured. -/
def envFallback : ProcessEnv :=
  { HIGHRES_CDN_URL := some "https://cdn", CORS_ENABLED := some "Yes",
    CORS_ORIGIN := some "*", ENABLE_DEFAULT_FALLBACK_IMAGE := some "Yes",
    DEFAULT_FALLBACK_IMAGE_BUCKET := some "fallback-bucket",
    DEFAULT_FALLBACK_IMAGE_KEY := some "fallback.png" }

/-- API-gateway-style event: no request context. -/
def eventPlain : ImageHandlerEvent :=
  { path := some "/cat.jpg", queryStringParameters := none, headers := none,
    body := none, requestContext := none }

/-- Load-balancer-style event: request context with an `elb` property. -/
def eventElb : ImageHandlerEvent :=
  { path := some "/cat.jpg", queryStringParameters := none, headers := none,
    body := none, requestContext := some [("elb", "arn:aws:elb")] }

/-- Request info with no edits and a non-empty key. -/
def infoNoEdits : ImageRequestInfo :=
  { key := some "cat.jpg", edits := [], contentType := HVal.str "image/jpeg",
    expires := HVal.undef, lastModified := HVal.undef,
    cacheControl := HVal.str "max-age=60", headers := none }

/-- Request info asking for a resize, with one custom response header. -/
def infoEdits : ImageRequestInfo :=
  { key := some "big.png", edits := [("resize", "200x200")],
    contentType := HVal.str "image/png", expires := HVal.undef,
    lastModified := HVal.undef, cacheControl := HVal.str "max-age=60",
    headers := some [("X-Custom", HVal.str "1")] }

/-- The recognized too-large processing failure. -/
def errTooLarge : ErrorInfo :=
  { status := some 413, code := "TooLargeImageException", message := "too large" }

/-- A client-input failure carrying an explicit status. -/
def errBadRequest : ErrorInfo :=
  { status := some 400, code := "BadRequest", message := "invalid edits" }

/-- A failure carrying the falsy status 0. -/
def errZeroStatus : ErrorInfo :=
  { status := some 0, code := "SomeError", message := "boom" }

/-- A fetched fallback object ("Man" as bytes, base64 "TWFu"). -/
def objFallback : FallbackObject :=
  { contentType := HVal.str "image/png", lastModified := HVal.str "Mon, 01 Jan 2024",
    bodyBytes := [77, 97, 110] }

/-- Collaborators: setup resolves a no-edits request. -/
def extNoEdits : Collaborators :=
  { setup := .ok infoNoEdits, process := .ok "PAYLOAD",
    fetchFallback := .err errBadRequest }

/-- Collaborators: processing succeeds. -/
def extSuccess : Collaborators :=
  { setup := .ok infoEdits, process := .ok "PAYLOAD",
    fetchFallback := .err errBadRequest }

/-- Collaborators: processing fails with the too-large failure. -/
def extTooLarge : Collaborators :=
  { setup := .ok infoEdits, process := .err errTooLarge,
    fetchFallback := .ok objFallback }

/-- Collaborators: processing fails and the fallback fetch succeeds. -/
def extFallbackOk : Collaborators :=
  { setup := .ok infoEdits, process := .err errBadRequest,
    fetchFallback := .ok objFallback }

/-- Collaborators: processing fails and the fallback fetch also fails. -/
def extFallbackErr : Collaborators :=
  { setup := .ok infoEdits, process := .err errBadRequest,
    fetchFallback := .err errBadRequest }

/-- Collaborators: setup itself fails with the too-large code. -/
def extSetupTooLarge : Collaborators :=
  { setup := .err errTooLarge, process := .ok "UNUSED",
    fetchFallback := .ok objFallback }

/-- Collaborators: processing fails with status 0 and the fetch succeeds. -/
def extZeroFallback : Collaborators :=
  { setup := .ok infoEdits, process := .err errZeroStatus,
    fetchFallback := .ok objFallback }

/-- Collaborators: processing fails with status 0, fallback not attempted. -/
def extZeroStructured : Collaborators :=
  { setup := .ok infoEdits, process := .err errZeroStatus,
    fetchFallback := .err errBadRequest }

/-- Collaborators: setup fails with status 0, fallback fetch available. -/
def extZeroSetupFallback : Collaborators :=
  { setup := .err errZeroStatus, process := .ok "UNUSED",
    fetchFallback := .ok objFallback }

/-- Collaborators: setup fails with status 0, fallback fetch failing. -/
def extZeroSetupStructured : Collaborators :=
  { setup := .err errZeroStatus, process := .ok "UNUSED",
    fetchFallback := .err errBadRequest }

/-! Helper lemmas about the header mapping. -/

theorem lookupHeader_setHeader_self (hs : Headers) (k : String) (v : HVal) :
    lookupHeader (setHeader hs k v) k = some v := by
  induction hs with
  | nil => simp [setHeader, lookupHeader]
  | cons hd tl ih =>
    obtain ⟨k0, v0⟩ := hd
    by_cases hk : k0 = k
    · simp [setHeader, hk, lookupHeader]
    · simp [setHeader, hk, lookupHeader, ih]

theorem lookupHeader_setHeader_ne (hs : Headers) {k0 k : String} (v : HVal)
    (hne : k0 ≠ k) :
    lookupHeader (setHeader hs k0 v) k = lookupHeader hs k := by
  induction hs with
  | nil => simp [setHeader, lookupHeader, hne]
  | cons hd tl ih =>
    obtain ⟨k1, v1⟩ := hd
    by_cases hk : k1 = k0
    · subst hk
      simp [setHeader, lookupHeader, hne]
    · by_cases hk1 : k1 = k
      · subst hk1
        simp [setHeader, lookupHeader, hk]
      · simp [setHeader, lookupHeader, hk, hk1, ih]

theorem lookupHeader_mergeHeaders_of_not_key (b : Headers) (a : Headers)
    {k : String} (hk : k ∉ b.map Prod.fst) :
    lookupHeader (mergeHeaders a b) k = lookupHeader a k := by
  induction b generalizing a with
  | nil => rfl
  | cons hd tl ih =>
    obtain ⟨k0, v0⟩ := hd
    simp only [List.map_cons, List.mem_cons, not_or] at hk
    have step : mergeHeaders a ((k0, v0) :: tl) = mergeHeaders (setHeader a k0 v0) tl := rfl
    rw [step, ih _ hk.2, lookupHeader_setHeader_ne]
    exact fun h => hk.1 h.symm

theorem lookupHeader_mergeHeaders_mem (b : Headers) (a : Headers)
    {k : String} {v : HVal} (hnd : (b.map Prod.fst).Nodup) (hmem : (k, v) ∈ b) :
    lookupHeader (mergeHeaders a b) k = some v := by
  induction b generalizing a with
  | nil => cases hmem
  | cons hd tl ih =>
    obtain ⟨k0, v0⟩ := hd
    have step : mergeHeaders a ((k0, v0) :: tl) = mergeHeaders (setHeader a k0 v0) tl := rfl
    simp only [List.map_cons, List.nodup_cons] at hnd
    rcases List.mem_cons.mp hmem with heq | htl
    · obtain ⟨hk, hv⟩ := Prod.mk.injEq .. ▸ heq
      subst hk; subst hv
      rw [step, lookupHeader_mergeHeaders_of_not_key tl _ hnd.1,
        lookupHeader_setHeader_self]
    · exact step ▸ ih _ hnd.2 htl

/-! Helper lemmas unfolding the handler along each control-flow path. -/

theorem handler_setup_err (env : ProcessEnv) (event : ImageHandlerEvent)
    (ext : Collaborators) {e : ErrorInfo} (h : ext.setup = .err e) :
    handler env event ext
      = resolveError env (isAlbEvent event) emptyRequestInfo e ext.fetchFallback := by
  obtain ⟨s, p, f⟩ := ext
  subst h
  rfl

theorem handler_gate_taken (env : ProcessEnv) (event : ImageHandlerEvent)
    (ext : Collaborators) {info : ImageRequestInfo}
    (h : ext.setup = .ok info) (hg : noEditsGate info = true) :
    handler env event ext = getRedirectResponse env info := by
  obtain ⟨s, p, f⟩ := ext
  subst h
  simp [handler, hg]

theorem handler_process_ok (env : ProcessEnv) (event : ImageHandlerEvent)
    (ext : Collaborators) {info : ImageRequestInfo} {payload : String}
    (h : ext.setup = .ok info) (hg : noEditsGate info = false)
    (hp : ext.process = .ok payload) :
    handler env event ext = successResponse env (isAlbEvent event) info payload := by
  obtain ⟨s, p, f⟩ := ext
  subst h
  subst hp
  simp [handler, hg]

theorem handler_process_err (env : ProcessEnv) (event : ImageHandlerEvent)
    (ext : Collaborators) {info : ImageRequestInfo} {e : ErrorInfo}
    (h : ext.setup = .ok info) (hg : noEditsGate info = false)
    (hp : ext.process = .err e) :
    handler env event ext
      = resolveError env (isAlbEvent event) info e ext.fetchFallback := by
  obtain ⟨s, p, f⟩ := ext
  subst h
  subst hp
  simp [handler, hg]

/-! Helper lemmas unfolding the catch block along its three tiers. -/

theorem resolveError_toolarge (env : ProcessEnv) (isAlb : Bool)
    (info : ImageRequestInfo) {e : ErrorInfo} (fetched : FetchOutcome)
    (h : e.code = "TooLargeImageException") :
    resolveError env isAlb info e fetched = getRedirectResponse env info := by
  simp [resolveError, h]

theorem resolveError_fallback_ok (env : ProcessEnv) (isAlb : Bool)
    (info : ImageRequestInfo) {e : ErrorInfo} {obj : FallbackObject}
    (hcode : e.code ≠ "TooLargeImageException")
    (hcfg : fallbackConfigured env = true) :
    resolveError env isAlb info e (.ok obj) = fallbackResponse env isAlb e obj := by
  simp [resolveError, hcode, hcfg]

theorem resolveError_tier3 (env : ProcessEnv) (isAlb : Bool)
    (info : ImageRequestInfo) {e : ErrorInfo} {fetched : FetchOutcome}
    (hcode : e.code ≠ "TooLargeImageException")
    (h : fallbackConfigured env = false ∨ ∃ fe, fetched = .err fe) :
    resolveError env isAlb info e fetched = tier3Response env isAlb e := by
  rcases h with hcfg | ⟨fe, hf⟩
  · simp [resolveError, hcode, hcfg]
  · subst hf
    by_cases hcfg : fallbackConfigured env <;> simp [resolveError, hcode, hcfg]

theorem lookupHeader_error_contentType (env : ProcessEnv) (isAlb : Bool) :
    lookupHeader (getResponseHeaders true isAlb env) "Content-Type"
      = some (HVal.str "application/json") := by
  simp only [getResponseHeaders, if_true]
  exact lookupHeader_setHeader_self _ _ _

/-- Case analysis of the catch block: its result is always one of the three
tier responses. -/
theorem resolveError_shapes (env : ProcessEnv) (isAlb : Bool)
    (info : ImageRequestInfo) (e : ErrorInfo) (fetched : FetchOutcome) :
    resolveError env isAlb info e fetched = getRedirectResponse env info ∨
    (∃ obj, resolveError env isAlb info e fetched = fallbackResponse env isAlb e obj) ∨
    resolveError env isAlb info e fetched = tier3Response env isAlb e := by
  by_cases h : e.code = "TooLargeImageException"
  · exact Or.inl (resolveError_toolarge env isAlb info fetched h)
  · by_cases hcfg : fallbackConfigured env = true
    · cases fetched with
      | ok obj =>
        exact Or.inr (Or.inl ⟨obj, resolveError_fallback_ok env isAlb info h hcfg⟩)
      | err fe =>
        exact Or.inr (Or.inr (resolveError_tier3 env isAlb info h (Or.inr ⟨fe, rfl⟩)))
    · have hcfg' : fallbackConfigured env = false := by simpa using hcfg
      exact Or.inr (Or.inr (resolveError_tier3 env isAlb info h (Or.inl hcfg')))

/-- C1: for every inbound event and every outcome of the external
collaborators (setup, image processing, fallback fetch, each succeeding or
failing arbitrarily), the embedded handler is a total function into
`ImageHandlerExecutionResult` — a structure that always carries
`statusCode`, `headers`, `body` and `isBase64Encoded` — and its value is
always one of the four explicitly constructed response shapes (redirect,
success, fallback image, structured error): no internal failure escapes
the catch-all. -/
theorem handler_always_wellformed (env : ProcessEnv) (event : ImageHandlerEvent)
    (ext : Collaborators) :
    (∃ info, handler env event ext = getRedirectResponse env info) ∨
    (∃ info payload,
      handler env event ext = successResponse env (isAlbEvent event) info payload) ∨
    (∃ e obj, handler env event ext = fallbackResponse env (isAlbEvent event) e obj) ∨
    (∃ e, handler env event ext = tier3Response env (isAlbEvent event) e) := by
  rcases hext : ext.setup with info | e
  · by_cases hg : noEditsGate info = true
    · exact Or.inl ⟨info, handler_gate_taken env event ext hext hg⟩
    · have hg' : noEditsGate info = false := by simpa using hg
      rcases hp : ext.process with payload | e
      · exact Or.inr (Or.inl ⟨info, payload,
          handler_process_ok env event ext hext hg' hp⟩)
      · rw [handler_process_err env event ext hext hg' hp]
        rcases resolveError_shapes env (isAlbEvent event) info e ext.fetchFallback
          with h | ⟨obj, h⟩ | h
        · exact Or.inl ⟨info, h⟩
        · exact Or.inr (Or.inr (Or.inl ⟨e, obj, h⟩))
        · exact Or.inr (Or.inr (Or.inr ⟨e, h⟩))
  · rw [handler_setup_err env event ext hext]
    rcases resolveError_shapes env (isAlbEvent event) emptyRequestInfo e
      ext.fetchFallback with h | ⟨obj, h⟩ | h
    · exact Or.inl ⟨emptyRequestInfo, h⟩
    · exact Or.inr (Or.inr (Or.inl ⟨e, obj, h⟩))
    · exact Or.inr (Or.inr (Or.inr ⟨e, h⟩))

/-- C2: when setup resolves a request whose edits mapping is empty and
whose key is a non-empty string, the handler skips processing and returns
statusCode 301, isBase64Encoded false, body null, and the single header
`Location = HIGHRES_CDN_URL ++ "/" ++ key` (so Location ends in the slash
followed by the key). -/
theorem handler_no_edits_redirect (env : ProcessEnv) (event : ImageHandlerEvent)
    (ext : Collaborators) (info : ImageRequestInfo) (k u : String)
    (hsetup : ext.setup = .ok info) (hedits : info.edits = [])
    (hkey : info.key = some k) (hk : k ≠ "")
    (hurl : env.HIGHRES_CDN_URL = some u) :
    handler env event ext =
      { statusCode := 301, isBase64Encoded := false,
        headers := [("Location", HVal.str (u ++ "/" ++ k))], body := none } ∧
    ∃ p, u ++ "/" ++ k = p ++ "/" ++ k := by
  have hg : noEditsGate info = true := by
    simp [noEditsGate, hedits, hkey, hk]
  refine ⟨?_, ⟨u, rfl⟩⟩
  rw [handler_gate_taken env event ext hsetup hg]
  simp [getRedirectResponse, templateVal, hurl, hkey, StatusCodes.MOVED]

/-- Witness for C2: the no-edits request for "cat.jpg" redirects to
"https://cdn/cat.jpg". -/
theorem handler_no_edits_redirect_witness :
    handler envPlain eventPlain extNoEdits =
      { statusCode := 301, isBase64Encoded := false,
        headers := [("Location", HVal.str "https://cdn/cat.jpg")], body := none } := by
  have h := handler_no_edits_redirect envPlain eventPlain extNoEdits infoNoEdits
    "cat.jpg" "https://cdn" rfl rfl rfl (by decide) rfl
  exact h.1.trans (by decide)

/-- C3: when processing succeeds with payload P, the result is status 200,
base64-encoded, body P, and its headers are the non-error builder output
overlaid with Content-Type, Expires, Last-Modified and Cache-Control from
the request info, with the custom headers mapping taking precedence over
everything when present. -/
theorem handler_success_headers (env : ProcessEnv) (event : ImageHandlerEvent)
    (ext : Collaborators) (info : ImageRequestInfo) (payload : String)
    (hsetup : ext.setup = .ok info) (hgate : noEditsGate info = false)
    (hproc : ext.process = .ok payload) :
    handler env event ext = successResponse env (isAlbEvent event) info payload ∧
    (handler env event ext).statusCode = 200 ∧
    (handler env event ext).isBase64Encoded = true ∧
    (handler env event ext).body = some payload ∧
    (∀ custom k v, info.headers = some custom → (custom.map Prod.fst).Nodup →
      (k, v) ∈ custom →
      lookupHeader (handler env event ext).headers k = some v) := by
  have hmain := handler_process_ok env event ext hsetup hgate hproc
  refine ⟨hmain, by rw [hmain]; rfl, by rw [hmain]; rfl, by rw [hmain]; rfl,
    ?_⟩
  intro custom k v hcustom hnd hmem
  rw [hmain]
  simp only [successResponse, hcustom]
  exact lookupHeader_mergeHeaders_mem custom _ hnd hmem

/-- Witness for C3: a successful resize of "big.png" yields status 200 and
the custom header X-Custom = "1" survives into the response. -/
theorem handler_success_headers_witness :
    handler envPlain eventPlain extSuccess
      = successResponse envPlain (isAlbEvent eventPlain) infoEdits "PAYLOAD" ∧
    lookupHeader (handler envPlain eventPlain extSuccess).headers "X-Custom"
      = some (HVal.str "1") := by
  have h := handler_success_headers envPlain eventPlain extSuccess infoEdits
    "PAYLOAD" rfl (by decide) rfl
  exact ⟨h.1, h.2.2.2.2 [("X-Custom", HVal.str "1")] "X-Custom" (HVal.str "1")
    rfl (by decide) (by decide)⟩

/-- C4: a processing failure whose code is "TooLargeImageException" yields
exactly the redirect computed from the same request info — statusCode 301,
single Location header, null body — for every fallback-image configuration
and every fallback-fetch outcome (the redirect tier is decided before the
default-fallback and structured-error tiers are consulted). -/
theorem handler_toolarge_redirect (env : ProcessEnv) (event : ImageHandlerEvent)
    (ext : Collaborators) (info : ImageRequestInfo) (e : ErrorInfo) (k u : String)
    (hsetup : ext.setup = .ok info) (hgate : noEditsGate info = false)
    (hproc : ext.process = .err e)
    (hcode : e.code = "TooLargeImageException")
    (hkey : info.key = some k) (hurl : env.HIGHRES_CDN_URL = some u) :
    handler env event ext = getRedirectResponse env info ∧
    getRedirectResponse env info =
      { statusCode := 301, isBase64Encoded := false,
        headers := [("Location", HVal.str (u ++ "/" ++ k))], body := none } := by
  constructor
  · rw [handler_process_err env event ext hsetup hgate hproc]
    exact resolveError_toolarge env (isAlbEvent event) info ext.fetchFallback hcode
  · simp [getRedirectResponse, templateVal, hurl, hkey, StatusCodes.MOVED]

/-- Witness for C4: with the default fallback fully configured and a
successful fetch available, the too-large failure still redirects. -/
theorem handler_toolarge_redirect_witness :
    handler envFallback eventPlain extTooLarge
      = getRedirectResponse envFallback infoEdits :=
  (handler_toolarge_redirect envFallback eventPlain extTooLarge infoEdits
    errTooLarge "big.png" "https://cdn" rfl (by decide) rfl rfl rfl rfl).1

/-- C5 counterexample: at a concrete error carrying the present-but-falsy
status 0, with the default fallback enabled and configured and the fetch
succeeding, the response statusCode is 500 and not the carried status —
refuting, at this input, the claim that statusCode equals the error status
whenever the status is present. -/
theorem handler_fallback_present_status_cex :
    extZeroFallback.setup = .ok infoEdits ∧
    extZeroFallback.process = .err errZeroStatus ∧
    errZeroStatus.code ≠ "TooLargeImageException" ∧
    errZeroStatus.status = some 0 ∧
    fallbackConfigured envFallback = true ∧
    extZeroFallback.fetchFallback = .ok objFallback ∧
    (handler envFallback eventPlain extZeroFallback).statusCode = 500 ∧
    (handler envFallback eventPlain extZeroFallback).statusCode ≠ 0 := by
  decide

/-- C5 (amended): for every error without code "TooLargeImageException" —
whether raised by setup or by processing — when the default fallback is
enabled with a non-whitespace bucket and key and the object fetch
succeeds, the result has statusCode equal to the error status when that
status is truthy (present and nonzero) and 500 otherwise, isBase64Encoded
true, body the fetched bytes base64-encoded, and headers the non-error
builder output overlaid with the fetched Content-Type and Last-Modified
plus Cache-Control = "max-age=31536000,public". -/
theorem handler_fallback_success (env : ProcessEnv) (event : ImageHandlerEvent)
    (ext : Collaborators) (info : ImageRequestInfo) (e : ErrorInfo)
    (obj : FallbackObject)
    (hpath : ext.setup = .err e ∨
      (ext.setup = .ok info ∧ noEditsGate info = false ∧ ext.process = .err e))
    (hcode : e.code ≠ "TooLargeImageException")
    (hcfg : fallbackConfigured env = true)
    (hfetch : ext.fetchFallback = .ok obj) :
    handler env event ext = fallbackResponse env (isAlbEvent event) e obj ∧
    (handler env event ext).statusCode
      = (if statusTruthy e.status then e.status.getD 500 else 500) ∧
    (handler env event ext).isBase64Encoded = true ∧
    (handler env event ext).body = some (base64Encode obj.bodyBytes) ∧
    (handler env event ext).headers =
      setHeader (setHeader (setHeader
        (getResponseHeaders false (isAlbEvent event) env)
        "Content-Type" obj.contentType)
        "Last-Modified" obj.lastModified)
        "Cache-Control" (HVal.str "max-age=31536000,public") := by
  have hmain : handler env event ext = fallbackResponse env (isAlbEvent event) e obj := by
    rcases hpath with hse | ⟨hso, hg, hpe⟩
    · rw [handler_setup_err env event ext hse, hfetch]
      exact resolveError_fallback_ok env (isAlbEvent event) emptyRequestInfo hcode hcfg
    · rw [handler_process_err env event ext hso hg hpe, hfetch]
      exact resolveError_fallback_ok env (isAlbEvent event) info hcode hcfg
  exact ⟨hmain, by rw [hmain]; rfl, by rw [hmain]; rfl, by rw [hmain]; rfl,
    by rw [hmain]; rfl⟩

/-- Witness for C5 (amended): a BadRequest failure with the fallback
configured and fetched serves the fallback image. -/
theorem handler_fallback_success_witness :
    handler envFallback eventPlain extFallbackOk
      = fallbackResponse envFallback (isAlbEvent eventPlain) errBadRequest objFallback ∧
    (handler envFallback eventPlain extFallbackOk).statusCode = 400 ∧
    (handler envFallback eventPlain extFallbackOk).body = some "TWFu" := by
  have h := handler_fallback_success envFallback eventPlain extFallbackOk
    infoEdits errBadRequest objFallback
    (Or.inr ⟨rfl, by decide, rfl⟩) (by decide) (by decide) rfl
  exact ⟨h.1, h.2.1.trans (by decide), h.2.2.2.1.trans (by decide)⟩

/-- C6 counterexample: at a concrete error carrying the present-but-falsy
status 0, with the fallback disabled, the structured-error response has
statusCode 500 (not the carried status 0) and the fixed generic body
rather than the serialized error — refuting, at this input, the claim that
statusCode equals the error status whenever the status is present and that
the generic body appears only when the error carries no status. -/
theorem handler_structured_present_status_cex :
    extZeroStructured.setup = .ok infoEdits ∧
    extZeroStructured.process = .err errZeroStatus ∧
    errZeroStatus.code ≠ "TooLargeImageException" ∧
    errZeroStatus.status = some 0 ∧
    fallbackConfigured envPlain = false ∧
    (handler envPlain eventPlain extZeroStructured).statusCode = 500 ∧
    (handler envPlain eventPlain extZeroStructured).statusCode ≠ 0 ∧
    (handler envPlain eventPlain extZeroStructured).body = some genericErrorBody ∧
    (handler envPlain eventPlain extZeroStructured).body
      ≠ some (stringifyError errZeroStatus) := by
  decide

/-- C6 (amended): for every error without code "TooLargeImageException" —
whether raised by setup or by processing — when the default fallback is
disabled or misconfigured, or its object fetch fails, the result has
statusCode equal to the error status when truthy (present and nonzero)
else 500, isBase64Encoded false, the error headers with Content-Type =
application/json, and a JSON body: the serialized error (carrying status,
code and message) when the status is truthy, else the fixed generic
InternalError body; a failed fallback fetch never surfaces as an
unhandled fault. -/
theorem handler_structured_error (env : ProcessEnv) (event : ImageHandlerEvent)
    (ext : Collaborators) (info : ImageRequestInfo) (e : ErrorInfo)
    (hpath : ext.setup = .err e ∨
      (ext.setup = .ok info ∧ noEditsGate info = false ∧ ext.process = .err e))
    (hcode : e.code ≠ "TooLargeImageException")
    (hfb : fallbackConfigured env = false ∨ ∃ fe, ext.fetchFallback = .err fe) :
    handler env event ext = tier3Response env (isAlbEvent event) e ∧
    (handler env event ext).statusCode
      = (if statusTruthy e.status then e.status.getD 500 else 500) ∧
    (handler env event ext).isBase64Encoded = false ∧
    lookupHeader (handler env event ext).headers "Content-Type"
      = some (HVal.str "application/json") ∧
    (handler env event ext).body
      = some (if statusTruthy e.status then stringifyError e else genericErrorBody) := by
  have hmain : handler env event ext = tier3Response env (isAlbEvent event) e := by
    rcases hpath with hse | ⟨hso, hg, hpe⟩
    · rw [handler_setup_err env event ext hse]
      exact resolveError_tier3 env (isAlbEvent event) emptyRequestInfo hcode hfb
    · rw [handler_process_err env event ext hso hg hpe]
      exact resolveError_tier3 env (isAlbEvent event) info hcode hfb
  have hheaders : (tier3Response env (isAlbEvent event) e).headers
      = getResponseHeaders true (isAlbEvent event) env := by
    unfold tier3Response
    split <;> rfl
  refine ⟨hmain, ?_, ?_, ?_, ?_⟩
  · rw [hmain]
    cases hst : statusTruthy e.status <;>
      simp [tier3Response, hst, StatusCodes.INTERNAL_SERVER_ERROR]
  · rw [hmain]
    cases hst : statusTruthy e.status <;> simp [tier3Response, hst]
  · rw [hmain, hheaders]
    exact lookupHeader_error_contentType env (isAlbEvent event)
  · rw [hmain]
    cases hst : statusTruthy e.status <;> simp [tier3Response, hst]

/-- Witness for C6 (amended): a BadRequest failure with no fallback
configured returns the serialized 400 error. -/
theorem handler_structured_error_witness :
    handler envPlain eventPlain extFallbackErr
      = tier3Response envPlain (isAlbEvent eventPlain) errBadRequest ∧
    (handler envPlain eventPlain extFallbackErr).statusCode = 400 ∧
    (handler envPlain eventPlain extFallbackErr).body
      = some "\x7b\"status\":400,\"code\":\"BadRequest\",\"message\":\"invalid edits\"\x7d" := by
  have h := handler_structured_error envPlain eventPlain extFallbackErr
    infoEdits errBadRequest (Or.inr ⟨rfl, by decide, rfl⟩) (by decide)
    (Or.inl (by decide))
  exact ⟨h.1, h.2.1.trans (by decide), h.2.2.2.2.trans (by decide)⟩

/-- C7 counterexample: when setup fails before a key is resolved and the
error selects the Tier-1 redirect, the Location header at a concrete CDN
base is "https://cdn/undefined" — the empty-object context interpolates
its undefined key as the literal text "undefined" — and not the
empty-path-segment target "https://cdn/" the claim states. -/
theorem handler_empty_redirect_cex :
    extSetupTooLarge.setup = .err errTooLarge ∧
    errTooLarge.code = "TooLargeImageException" ∧
    envPlain.HIGHRES_CDN_URL = some "https://cdn" ∧
    lookupHeader (handler envPlain eventPlain extSetupTooLarge).headers "Location"
      = some (HVal.str "https://cdn/undefined") ∧
    lookupHeader (handler envPlain eventPlain extSetupTooLarge).headers "Location"
      ≠ some (HVal.str "https://cdn/") := by
  decide

/-- C7 (amended): when request setup fails, the top-level error handler
proceeds with the empty-object request context (whose properties,
including key, are undefined), and if the error then selects the Tier-1
redirect, the redirect still fires — with the interpolated text
"undefined" as the path segment, Location = HIGHRES_CDN_URL ++
"/" ++ "undefined" — rather than crashing. -/
theorem handler_setup_failure_redirect (env : ProcessEnv)
    (event : ImageHandlerEvent) (ext : Collaborators) (e : ErrorInfo) (u : String)
    (hsetup : ext.setup = .err e)
    (hcode : e.code = "TooLargeImageException")
    (hurl : env.HIGHRES_CDN_URL = some u) :
    handler env event ext = getRedirectResponse env emptyRequestInfo ∧
    getRedirectResponse env emptyRequestInfo =
      { statusCode := 301, isBase64Encoded := false,
        headers := [("Location", HVal.str (u ++ "/" ++ "undefined"))],
        body := none } := by
  constructor
  · rw [handler_setup_err env event ext hsetup]
    exact resolveError_toolarge env (isAlbEvent event) emptyRequestInfo
      ext.fetchFallback hcode
  · simp [getRedirectResponse, emptyRequestInfo, templateVal, hurl,
      StatusCodes.MOVED]

/-- Witness for C7 (amended): the degenerate redirect at the concrete CDN
base "https://cdn". -/
theorem handler_setup_failure_redirect_witness :
    handler envPlain eventPlain extSetupTooLarge
      = getRedirectResponse envPlain emptyRequestInfo :=
  (handler_setup_failure_redirect envPlain eventPlain extSetupTooLarge
    errTooLarge "https://cdn" rfl rfl rfl).1

/-- C8: for every environment and both the error and non-error cases, the
header builder omits Access-Control-Allow-Credentials for load-balancer
origin and emits it with the boolean value true otherwise. -/
theorem getResponseHeaders_credentials (env : ProcessEnv) (isError : Bool) :
    lookupHeader (getResponseHeaders isError true env)
      "Access-Control-Allow-Credentials" = none ∧
    lookupHeader (getResponseHeaders isError false env)
      "Access-Control-Allow-Credentials" = some (HVal.bool true) := by
  by_cases hc : env.CORS_ENABLED = some "Yes" <;>
    cases isError <;>
      simp [getResponseHeaders, hc, setHeader, lookupHeader]

/-- C9: an event is treated as load-balancer origin exactly when its
request context is present and has an own property named "elb", whatever
value that property holds; and the handler result depends on the event
only through this flag (computed once per invocation), so two events
agreeing on it produce identical results against identical collaborator
outcomes and environment. -/
theorem isAlb_marker (event : ImageHandlerEvent) :
    (isAlbEvent event = true ↔
      ∃ rc, event.requestContext = some rc ∧ ∃ v, ("elb", v) ∈ rc) ∧
    (∀ (event2 : ImageHandlerEvent) (env : ProcessEnv) (ext : Collaborators),
      isAlbEvent event = isAlbEvent event2 →
      handler env event ext = handler env event2 ext) := by
  constructor
  · cases hrc : event.requestContext with
    | none => simp [isAlbEvent, hrc]
    | some rc =>
      simp only [isAlbEvent, hrc, List.any_eq_true, beq_iff_eq]
      constructor
      · rintro ⟨⟨pk, pv⟩, hmem, hpk⟩
        have hpk2 : pk = "elb" := by simpa using hpk
        subst hpk2
        exact ⟨rc, rfl, pv, hmem⟩
      · rintro ⟨rc2, hrc2, v, hv⟩
        have hrceq : rc = rc2 := Option.some.inj hrc2
        subst hrceq
        exact ⟨("elb", v), hv, rfl⟩
  · intro event2 env ext h
    unfold handler
    rw [h]

/-- Witness for C9: an event whose context carries `elb` is load-balancer
origin, and changing only the path of such an event leaves the handler
result unchanged. -/
theorem isAlb_marker_witness :
    isAlbEvent eventElb = true ∧
    handler envPlain eventElb extSuccess
      = handler envPlain { eventElb with path := some "/other.png" } extSuccess := by
  refine ⟨(isAlb_marker eventElb).1.mpr
      ⟨[("elb", "arn:aws:elb")], rfl, "arn:aws:elb", by decide⟩,
    (isAlb_marker eventElb).2 _ envPlain extSuccess (by decide)⟩

/-- C10: in both the default-fallback-image branch and the structured-error
branch the error status is tested for truthiness, not presence: an error
carrying the falsy status 0 is treated as if it had no status, so the
fallback response and the structured-error response both get statusCode
500, and the structured-error branch uses the generic InternalError body. -/
theorem handler_falsy_status (envA envB : ProcessEnv) (event : ImageHandlerEvent)
    (extA extB : Collaborators) (e : ErrorInfo) (obj : FallbackObject)
    (hcode : e.code ≠ "TooLargeImageException") (hzero : e.status = some 0)
    (hA : extA.setup = .err e) (hcfgA : fallbackConfigured envA = true)
    (hfA : extA.fetchFallback = .ok obj)
    (hB : extB.setup = .err e) (hcfgB : fallbackConfigured envB = false) :
    (handler envA event extA).statusCode = 500 ∧
    (handler envB event extB).statusCode = 500 ∧
    (handler envB event extB).body = some genericErrorBody := by
  have hA1 : handler envA event extA
      = fallbackResponse envA (isAlbEvent event) e obj := by
    rw [handler_setup_err envA event extA hA, hfA]
    exact resolveError_fallback_ok envA (isAlbEvent event) emptyRequestInfo hcode hcfgA
  have hB1 : handler envB event extB = tier3Response envB (isAlbEvent event) e := by
    rw [handler_setup_err envB event extB hB]
    exact resolveError_tier3 envB (isAlbEvent event) emptyRequestInfo hcode
      (Or.inl hcfgB)
  have hst : statusTruthy e.status = false := by simp [statusTruthy, hzero]
  refine ⟨?_, ?_, ?_⟩
  · rw [hA1]
    simp [fallbackResponse, statusOrInternal, hst,
      StatusCodes.INTERNAL_SERVER_ERROR]
  · rw [hB1]
    simp [tier3Response, hst, StatusCodes.INTERNAL_SERVER_ERROR]
  · rw [hB1]
    simp [tier3Response, hst]

/-- Witness for C10: the status-0 failure at concrete configured and
unconfigured environments. -/
theorem handler_falsy_status_witness :
    (handler envFallback eventPlain extZeroSetupFallback).statusCode = 500 ∧
    (handler envPlain eventPlain extZeroSetupStructured).statusCode = 500 ∧
    (handler envPlain eventPlain extZeroSetupStructured).body
      = some genericErrorBody :=
  handler_falsy_status envFallback envPlain eventPlain extZeroSetupFallback
    extZeroSetupStructured errZeroStatus objFallback (by decide) rfl rfl
    (by decide) rfl rfl (by decide)
